import Mathlib

/-!
Verification of the Dyksa subscription-reminder core: a shallow embedding of
the subscription repository (server/routes.ts, `DatabaseStorage`), the Zod
insert schemas (shared/schema.ts), the statistics computations
(GET /api/stats and client analytics), the due-date classifier
(subscription-card.tsx `getDueText`) and the grouping policy
(subscriptions.tsx `groupSubscriptionsByStatus`).

Modelling conventions:
- the `subscriptions` table is a `List SubRow`; SQL `WHERE` clauses become
  `List.filter` / `List.find?`, `UPDATE` becomes `List.map` with a guard,
  `INSERT` appends, `ORDER BY nextPaymentDate` is an insertion sort;
- timestamps are `Int` (milliseconds since the epoch, as JS `Date.getTime`);
- the `decimal(10,2)` column is carried as the raw `String` the driver
  returns (drizzle's TS type for `decimal`), exactly as the handlers see it;
- server-generated values (`gen_random_uuid`, `defaultNow`) are passed in
  explicitly as `freshId` / `now` parameters.
-/

/-- A row of the `subscriptions` table (shared/schema.ts, `subscriptions`
pgTable): id, userId, name, amount (decimal carried as string), currency
(default "USD"), billingPeriod (varchar), nextPaymentDate (timestamp),
reminderDays (integer, default 3), description, notification flags,
isActive (default true), createdAt/updatedAt. -/
structure SubRow where
  id : Nat
  userId : Nat
  name : String
  amount : String
  currency : String
  billingPeriod : String
  nextPaymentDate : Int
  reminderDays : Int
  description : Option String
  emailNotifications : Bool
  pushNotifications : Bool
  isActive : Bool
  createdAt : Int
  updatedAt : Int
deriving DecidableEq

/-- Insertion sort step implementing the SQL `ORDER BY nextPaymentDate`
(ascending) of the repository queries. -/
def insertByDate (r : SubRow) : List SubRow → List SubRow
  | [] => [r]
  | x :: xs =>
    if r.nextPaymentDate ≤ x.nextPaymentDate then r :: x :: xs
    else x :: insertByDate r xs

/-- `ORDER BY nextPaymentDate` of the repository queries. -/
def sortByDate : List SubRow → List SubRow
  | [] => []
  | x :: xs => insertByDate x (sortByDate xs)

/-- `DatabaseStorage.getSubscriptions` (routes.ts 249-255):
`SELECT ... WHERE userId = u AND isActive = true ORDER BY nextPaymentDate`. -/
def getSubscriptions (u : Nat) (db : List SubRow) : List SubRow :=
  sortByDate (db.filter fun r => r.userId == u && r.isActive)

/-- `DatabaseStorage.getUpcomingSubscriptions` (routes.ts 257-269):
`WHERE userId = u AND isActive = true AND nextPaymentDate >= now
ORDER BY nextPaymentDate LIMIT limit`. -/
def getUpcomingSubscriptions (u : Nat) (limit : Nat) (now : Int)
    (db : List SubRow) : List SubRow :=
  (sortByDate (db.filter fun r =>
    r.userId == u && r.isActive && decide (now ≤ r.nextPaymentDate))).take limit

/-- `DatabaseStorage.getSubscription` (routes.ts 271-277):
`SELECT ... WHERE id = i AND userId = u` — note: no `isActive` condition. -/
def getSubscription (i : Nat) (u : Nat) (db : List SubRow) : Option SubRow :=
  db.find? fun r => r.id == i && r.userId == u

/-- `DatabaseStorage.deleteSubscription` (routes.ts 296-302):
`UPDATE subscriptions SET isActive = false, updatedAt = now
WHERE id = i AND userId = u`; returns `rowCount > 0` (the number of rows
matched by the WHERE clause — again with no `isActive` condition). -/
def deleteSubscription (i : Nat) (u : Nat) (now : Int)
    (db : List SubRow) : Bool × List SubRow :=
  let matched := db.filter fun r => r.id == i && r.userId == u
  (!matched.isEmpty,
   db.map fun r =>
     if r.id == i && r.userId == u then
       { r with isActive := false, updatedAt := now }
     else r)

/-! ### Membership lemmas for the repository queries -/

lemma mem_insertByDate {s r : SubRow} {l : List SubRow} :
    s ∈ insertByDate r l ↔ s = r ∨ s ∈ l := by
  induction l with
  | nil => simp [insertByDate]
  | cons x xs ih =>
    by_cases h : r.nextPaymentDate ≤ x.nextPaymentDate
    · simp [insertByDate, h]
    · simp [insertByDate, h, ih]
      tauto

lemma mem_sortByDate {s : SubRow} {l : List SubRow} :
    s ∈ sortByDate l ↔ s ∈ l := by
  induction l with
  | nil => simp [sortByDate]
  | cons x xs ih => simp [sortByDate, mem_insertByDate, ih]

lemma mem_getSubscriptions {s : SubRow} {u : Nat} {db : List SubRow} :
    s ∈ getSubscriptions u db ↔ s ∈ db ∧ s.userId = u ∧ s.isActive = true := by
  simp [getSubscriptions, mem_sortByDate, List.mem_filter, and_assoc]

lemma mem_getUpcomingSubscriptions {s : SubRow} {u : Nat} {limit : Nat}
    {now : Int} {db : List SubRow} (h : s ∈ getUpcomingSubscriptions u limit now db) :
    s ∈ db ∧ s.userId = u ∧ s.isActive = true ∧ now ≤ s.nextPaymentDate := by
  have hs := List.take_subset limit _ h
  rw [mem_sortByDate, List.mem_filter] at hs
  obtain ⟨hmem, hp⟩ := hs
  simp at hp
  exact ⟨hmem, hp.1.1, hp.1.2, hp.2⟩

/-! ### Zod insert schemas (shared/schema.ts 422-434)

`insertSubscriptionSchema = createInsertSchema(subscriptions).omit({id,
userId, createdAt, updatedAt})`.  drizzle-zod maps the columns to:
`name/amount/billingPeriod : z.string()` (required — the decimal and the
billing-period varchar are validated only as strings, no numeric or enum
check), `nextPaymentDate : z.date()` (required, rejects an Invalid Date),
everything with a column default is optional, and `isActive` is NOT in the
omit list, so a caller may supply it.

A request body is modelled as already well-typed field-wise (field absent
= `none`); `nextPaymentDate : Option (Option Int)` distinguishes an absent
field (`none`) from a supplied Invalid Date (`some none`) and a supplied
valid date (`some (some t)`). -/

/-- A request body for POST/PUT `/api/subscriptions`. -/
structure SubPayload where
  name : Option String
  amount : Option String
  currency : Option String
  billingPeriod : Option String
  nextPaymentDate : Option (Option Int)
  reminderDays : Option Int
  description : Option String
  emailNotifications : Option Bool
  pushNotifications : Option Bool
  isActive : Option Bool
deriving DecidableEq

/-- The output of a successful `insertSubscriptionSchema.parse`:
required fields are present, defaultable ones stay optional. -/
structure InsertSub where
  name : String
  amount : String
  currency : Option String
  billingPeriod : String
  nextPaymentDate : Int
  reminderDays : Option Int
  description : Option String
  emailNotifications : Option Bool
  pushNotifications : Option Bool
  isActive : Option Bool
deriving DecidableEq

/-- The output of `insertSubscriptionSchema.partial().parse` (PUT handler):
every field optional. -/
structure PartialIns where
  name : Option String
  amount : Option String
  currency : Option String
  billingPeriod : Option String
  nextPaymentDate : Option Int
  reminderDays : Option Int
  description : Option String
  emailNotifications : Option Bool
  pushNotifications : Option Bool
  isActive : Option Bool
deriving DecidableEq

/-- `insertSubscriptionSchema.parse`: fails (ZodError) exactly when a
required field (`name`, `amount`, `billingPeriod`, `nextPaymentDate`) is
absent or `nextPaymentDate` is an Invalid Date.  The `amount` string and
the `billingPeriod` string pass through unchecked. -/
def parseInsert (p : SubPayload) : Option InsertSub :=
  match p.name, p.amount, p.billingPeriod, p.nextPaymentDate with
  | some n, some a, some bp, some (some d) =>
    some { name := n, amount := a, currency := p.currency,
           billingPeriod := bp, nextPaymentDate := d,
           reminderDays := p.reminderDays, description := p.description,
           emailNotifications := p.emailNotifications,
           pushNotifications := p.pushNotifications, isActive := p.isActive }
  | _, _, _, _ => none

/-- `insertSubscriptionSchema.partial().parse`: all fields optional, so the
only failure left is a supplied Invalid Date. -/
def parsePartial (p : SubPayload) : Option PartialIns :=
  match p.nextPaymentDate with
  | some none => none
  | some (some d) =>
    some { name := p.name, amount := p.amount, currency := p.currency,
           billingPeriod := p.billingPeriod, nextPaymentDate := some d,
           reminderDays := p.reminderDays, description := p.description,
           emailNotifications := p.emailNotifications,
           pushNotifications := p.pushNotifications, isActive := p.isActive }
  | none =>
    some { name := p.name, amount := p.amount, currency := p.currency,
           billingPeriod := p.billingPeriod, nextPaymentDate := none,
           reminderDays := p.reminderDays, description := p.description,
           emailNotifications := p.emailNotifications,
           pushNotifications := p.pushNotifications, isActive := p.isActive }

/-- `DatabaseStorage.createSubscription` (routes.ts 279-285): INSERT with
the column defaults of shared/schema.ts for absent fields (`currency`
"USD", `reminderDays` 3, notification flags true, `isActive` true) and the
server-generated `id`, `createdAt`, `updatedAt`.  Returns the new row. -/
def createSubscription (ins : InsertSub) (u : Nat) (freshId : Nat)
    (now : Int) (db : List SubRow) : SubRow × List SubRow :=
  let row : SubRow :=
    { id := freshId, userId := u, name := ins.name, amount := ins.amount,
      currency := ins.currency.getD "USD",
      billingPeriod := ins.billingPeriod,
      nextPaymentDate := ins.nextPaymentDate,
      reminderDays := ins.reminderDays.getD 3,
      description := ins.description,
      emailNotifications := ins.emailNotifications.getD true,
      pushNotifications := ins.pushNotifications.getD true,
      isActive := ins.isActive.getD true,
      createdAt := now, updatedAt := now }
  (row, db ++ [row])

/-- The drizzle `.set({...subscription, updatedAt: new Date()})` of
`updateSubscription`: only supplied fields change, `updatedAt` refreshes. -/
def applyPartial (part : PartialIns) (now : Int) (r : SubRow) : SubRow :=
  { r with
    name := part.name.getD r.name,
    amount := part.amount.getD r.amount,
    currency := part.currency.getD r.currency,
    billingPeriod := part.billingPeriod.getD r.billingPeriod,
    nextPaymentDate := part.nextPaymentDate.getD r.nextPaymentDate,
    reminderDays := part.reminderDays.getD r.reminderDays,
    description := match part.description with
      | some d => some d
      | none => r.description,
    emailNotifications := part.emailNotifications.getD r.emailNotifications,
    pushNotifications := part.pushNotifications.getD r.pushNotifications,
    isActive := part.isActive.getD r.isActive,
    updatedAt := now }

/-- `DatabaseStorage.updateSubscription` (routes.ts 287-294):
`UPDATE ... WHERE id = i AND userId = u RETURNING *`; `none` when no row
matched. -/
def updateSubscription (i : Nat) (u : Nat) (part : PartialIns) (now : Int)
    (db : List SubRow) : Option SubRow × List SubRow :=
  match db.find? fun r => r.id == i && r.userId == u with
  | none => (none, db)
  | some r =>
    (some (applyPartial part now r),
     db.map fun x =>
       if x.id == i && x.userId == u then applyPartial part now x else x)

/-- The POST `/api/subscriptions` handler (routes.ts 65-83): ZodError →
400 and no storage call; otherwise createSubscription and 201.  The first
component is the HTTP status. -/
def postSubscription (u : Nat) (p : SubPayload) (freshId : Nat) (now : Int)
    (db : List SubRow) : Nat × List SubRow :=
  match parseInsert p with
  | none => (400, db)
  | some ins => (201, (createSubscription ins u freshId now db).2)

/-- The PUT `/api/subscriptions/:id` handler (routes.ts 85-105): ZodError →
400 and no storage call; "not found" → 404; otherwise 200. -/
def putSubscription (i : Nat) (u : Nat) (p : SubPayload) (now : Int)
    (db : List SubRow) : Nat × List SubRow :=
  match parsePartial p with
  | none => (400, db)
  | some part =>
    match updateSubscription i u part now db with
    | (none, db') => (404, db')
    | (some _, db') => (200, db')

/-! ### Due-date classifier (subscription-card.tsx 32-49) and grouping
policy (subscriptions.tsx 72-91) -/

/-- JS `Math.ceil(a / b)` for an integer `a` and positive integer `b`
(rounding toward positive infinity, as `Math.ceil` does on the exact
quotient). -/
def jsCeilDiv (a b : Int) : Int := -((-a).fdiv b)

/-- The result of `getDueText`. -/
structure DueText where
  text : String
  urgent : Bool
deriving DecidableEq

/-- `getDueText` (subscription-card.tsx 32-49) as a function of
`diffTime = paymentDate.getTime() - now.getTime()` in milliseconds;
`diffDays = Math.ceil(diffTime / (1000*60*60*24))`. -/
def getDueText (diffTime : Int) : DueText :=
  let diffDays := jsCeilDiv diffTime 86400000
  if diffDays < 0 then { text := "Overdue", urgent := true }
  else if diffDays = 0 then { text := "Due today", urgent := true }
  else if diffDays = 1 then { text := "Due tomorrow", urgent := true }
  else if diffDays ≤ 7 then
    { text := "Due in " ++ toString diffDays ++ " days", urgent := false }
  else
    { text := "Due in " ++ toString (jsCeilDiv diffDays 7) ++ " week" ++
        (if diffDays > 14 then "s" else ""), urgent := false }

/-- The per-subscription `diffDays` of `groupSubscriptionsByStatus`
(subscriptions.tsx 76-87). -/
def diffDaysOf (now : Int) (r : SubRow) : Int :=
  jsCeilDiv (r.nextPaymentDate - now) 86400000

/-- `groupSubscriptionsByStatus` (subscriptions.tsx 72-91): `upcoming` are
the subscriptions with `diffDays <= 7 && diffDays >= 0`, `active` those
with `diffDays > 7 || diffDays < 0`; the page returns `{active, upcoming}`. -/
def groupSubscriptionsByStatus (now : Int) (subs : List SubRow) :
    List SubRow × List SubRow :=
  let upcoming := subs.filter fun sub =>
    decide (diffDaysOf now sub ≤ 7) && decide (0 ≤ diffDaysOf now sub)
  let active := subs.filter fun sub =>
    decide (7 < diffDaysOf now sub) || decide (diffDaysOf now sub < 0)
  (active, upcoming)

/-! ### Statistics engine (routes.ts 160-188, analytics page)

The handlers read the `decimal` strings back with `parseFloat` and fold
with JS number arithmetic.  Two models are used:

- `statsMonthlySpend` / `statsYearlySpend` over `StatSub` carry the
  decimal value of each amount as an exact `Rat` and treat JS `+`/`*` as
  exact rational arithmetic — the idealized arithmetic of the reductions;
- `statsMonthlySpendFP` is the same reduction with every `parseFloat`
  result and every intermediate `+` rounded to the nearest IEEE-754
  binary64 value (`fl64`), which is what JS numbers actually do. -/

/-- A subscription as seen by the stats reductions: its `billingPeriod`
string and the exact rational value of its 2-scale decimal `amount`. -/
structure StatSub where
  billingPeriod : String
  amount : Rat
deriving DecidableEq

/-- `monthlySpend` (routes.ts 167-169): filter `billingPeriod === 'monthly'`
then `reduce((sum, sub) => sum + parseFloat(sub.amount), 0)`, with the
arithmetic idealized as exact. -/
def statsMonthlySpend (subs : List StatSub) : Rat :=
  (subs.filter fun s => s.billingPeriod == "monthly").foldl
    (fun sum s => sum + s.amount) 0

/-- One step of the `yearlySpend` reduce (routes.ts 171-179): the `switch`
on `billingPeriod` with `default: return sum + amount`. -/
def yearlyStep (sum : Rat) (sub : StatSub) : Rat :=
  let amount := sub.amount
  if sub.billingPeriod == "monthly" then sum + amount * 12
  else if sub.billingPeriod == "yearly" then sum + amount
  else if sub.billingPeriod == "weekly" then sum + amount * 52
  else if sub.billingPeriod == "quarterly" then sum + amount * 4
  else sum + amount

/-- `yearlySpend` (routes.ts 170-180), arithmetic idealized as exact. -/
def statsYearlySpend (subs : List StatSub) : Rat :=
  subs.foldl yearlyStep 0

/-- The multiplier the code's `switch` applies to each billing period
(`default` → ×1). -/
def codeMultiplier (bp : String) : Rat :=
  if bp == "monthly" then 12
  else if bp == "yearly" then 1
  else if bp == "weekly" then 52
  else if bp == "quarterly" then 4
  else 1

/-- Modelled from the spec's words (4.2): the normalization table
`monthly→×12, yearly→×1, weekly→×52, quarterly→×4, custom→×1`; 0 outside
the enumerated billing periods, to compare with `codeMultiplier`. -/
def specMultiplier (bp : String) : Rat :=
  if bp = "monthly" then 12
  else if bp = "yearly" then 1
  else if bp = "weekly" then 52
  else if bp = "quarterly" then 4
  else if bp = "custom" then 1
  else 0

/-- `getAverageSpend` and the stats object it reads
(analytics page, src/unnamed/part_003 21-25 and 97-100). -/
structure StatsOut where
  totalSubscriptions : Nat
  monthlySpend : Rat
  yearlySpend : Rat
deriving DecidableEq

/-- `getAverageSpend` (analytics page 97-100):
`if (!stats || stats.totalSubscriptions === 0) return 0;
return stats.monthlySpend / stats.totalSubscriptions`. -/
def getAverageSpend (stats : Option StatsOut) : Rat :=
  match stats with
  | none => 0
  | some s =>
    if s.totalSubscriptions = 0 then 0
    else s.monthlySpend / (s.totalSubscriptions : Rat)

/-! ### IEEE-754 binary64 rounding over the rationals

JS numbers are binary64 floats; `parseFloat` and every `+` / `*` in the
stats reductions round their exact result to the nearest representable
binary64 value (ties to even significand).  `fl64` performs exactly that
rounding on a rational, for arguments in the normal finite range (which
covers every monetary value here; overflow and subnormals are not
modelled). -/

/-- Floor of a rational as an integer (`q.num` and `q.den` are coprime,
`fdiv` is floor division). -/
def ratFloor (q : Rat) : Int := q.num.fdiv (q.den : Int)

/-- Round a rational to the nearest integer, ties to the even integer.
The fractional part lies in `[0, 1)`; it is compared with `1/2` through
`2 * num` versus `den` so that the kernel can evaluate the comparison. -/
def roundHalfEven (q : Rat) : Int :=
  let n := ratFloor q
  let frac := q - (n : Rat)
  if 2 * frac.num < (frac.den : Int) then n
  else if (frac.den : Int) < 2 * frac.num then n + 1
  else if n % 2 = 0 then n else n + 1

/-- Fueled base-2 logarithm on naturals (structural recursion so the
kernel can evaluate it; 128 bits of fuel suffice for every value the
stats model meets). -/
def log2f : Nat → Nat → Nat
  | 0, _ => 0
  | fuel + 1, n => if 2 ≤ n then log2f fuel (n / 2) + 1 else 0

/-- `2 ^ e` in the rationals for an integer exponent. -/
def pow2 (e : Int) : Rat :=
  if 0 ≤ e then ((2 : Rat) ^ e.toNat) else ((2 : Rat) ^ (-e).toNat)⁻¹

/-- The binade exponent of a positive rational: the unique `e` with
`2 ^ e ≤ q < 2 ^ (e + 1)` (valid for `q ≥ 2 ^ (-64)`). -/
def binadeExp (q : Rat) : Int :=
  (log2f 128 ((q.num.toNat * 2 ^ 64) / q.den) : Int) - 64

/-- Round a positive rational to the nearest binary64 value (53-bit
significand, ties-to-even). -/
def fl64pos (q : Rat) : Rat :=
  let e := binadeExp q
  (roundHalfEven (q * pow2 (52 - e)) : Rat) * pow2 (e - 52)

/-- Round a rational to the nearest binary64 value (53-bit significand,
round-to-nearest, ties-to-even), in the normal range. -/
def fl64 (q : Rat) : Rat :=
  if q.num = 0 then 0 else if 0 < q.num then fl64pos q else -fl64pos (-q)

/-- `monthlySpend` (routes.ts 167-169) with faithful JS number semantics:
`parseFloat` yields the binary64 nearest to the decimal string's value and
each `+` of the reduce rounds its exact sum to binary64. -/
def statsMonthlySpendFP (subs : List StatSub) : Rat :=
  (subs.filter fun s => s.billingPeriod == "monthly").foldl
    (fun sum s => fl64 (sum + fl64 s.amount)) 0

/-! ### User settings service (routes.ts 126-157, 304-326;
shared/schema.ts 407-417, 429-434) -/

/-- A row of the `user_settings` table. -/
structure SettingsRow where
  id : Nat
  userId : Nat
  emailNotifications : Bool
  pushNotifications : Bool
  weeklySummary : Bool
  darkMode : Bool
  defaultCurrency : String
  createdAt : Int
  updatedAt : Int
deriving DecidableEq

/-- A body for PUT `/api/settings` after `insertUserSettingsSchema.parse`:
every column has a default, so every field is optional. -/
structure SettingsPayload where
  emailNotifications : Option Bool
  pushNotifications : Option Bool
  weeklySummary : Option Bool
  darkMode : Option Bool
  defaultCurrency : Option String
deriving DecidableEq

/-- `DatabaseStorage.getUserSettings` (routes.ts 305-311):
`SELECT ... WHERE userId = u`. -/
def getUserSettings (u : Nat) (db : List SettingsRow) : Option SettingsRow :=
  db.find? fun r => r.userId == u

/-- What GET `/api/settings` (routes.ts 126-141) responds with: the stored
row, or the literal fallback object
`{emailNotifications:true, pushNotifications:true, weeklySummary:false,
darkMode:false, defaultCurrency:"USD"}`. -/
inductive SettingsReply where
  | row (r : SettingsRow)
  | fallback (emailNotifications pushNotifications weeklySummary darkMode : Bool)
      (defaultCurrency : String)
deriving DecidableEq

/-- The GET `/api/settings` handler (routes.ts 126-141). -/
def getSettingsHandler (u : Nat) (db : List SettingsRow) : SettingsReply :=
  match getUserSettings u db with
  | some s => SettingsReply.row s
  | none => SettingsReply.fallback true true false false "USD"

/-- The `onConflictDoUpdate` SET of `upsertUserSettings`: supplied fields
overwrite, `updatedAt` refreshes. -/
def applySettings (p : SettingsPayload) (now : Int) (r : SettingsRow) :
    SettingsRow :=
  { r with
    emailNotifications := p.emailNotifications.getD r.emailNotifications,
    pushNotifications := p.pushNotifications.getD r.pushNotifications,
    weeklySummary := p.weeklySummary.getD r.weeklySummary,
    darkMode := p.darkMode.getD r.darkMode,
    defaultCurrency := p.defaultCurrency.getD r.defaultCurrency,
    updatedAt := now }

/-- The freshly inserted row of `upsertUserSettings` when no row for
`userId` exists: column defaults of shared/schema.ts 407-417 for absent
fields. -/
def newSettingsRow (u : Nat) (p : SettingsPayload) (freshId : Nat)
    (now : Int) : SettingsRow :=
  { id := freshId, userId := u,
    emailNotifications := p.emailNotifications.getD true,
    pushNotifications := p.pushNotifications.getD true,
    weeklySummary := p.weeklySummary.getD false,
    darkMode := p.darkMode.getD false,
    defaultCurrency := p.defaultCurrency.getD "USD",
    createdAt := now, updatedAt := now }

/-- `DatabaseStorage.upsertUserSettings` (routes.ts 313-326): INSERT, on
conflict on the unique `userId` UPDATE the supplied fields; returns the
resulting row. -/
def upsertUserSettings (u : Nat) (p : SettingsPayload) (freshId : Nat)
    (now : Int) (db : List SettingsRow) : SettingsRow × List SettingsRow :=
  match db.find? fun r => r.userId == u with
  | some r =>
    (applySettings p now r,
     db.map fun x => if x.userId == u then applySettings p now x else x)
  | none =>
    (newSettingsRow u p freshId now, db ++ [newSettingsRow u p freshId now])

/-! ### Shared concrete rows and payloads for witnesses and
counterexamples -/

/-- An active subscription of user 1. -/
def exSub : SubRow :=
  { id := 1, userId := 1, name := "Netflix", amount := "15.99",
    currency := "USD", billingPeriod := "monthly",
    nextPaymentDate := 86400000, reminderDays := 3, description := none,
    emailNotifications := true, pushNotifications := true, isActive := true,
    createdAt := 0, updatedAt := 0 }

/-- A soft-deleted (inactive) subscription of user 1. -/
def exInactive : SubRow :=
  { exSub with id := 2, isActive := false }

/-! ### Claim theorems -/

lemma deleteSubscription_fst {db : List SubRow} {i u : Nat} {now : Int}
    (h : ∃ r ∈ db, r.id = i ∧ r.userId = u) :
    (deleteSubscription i u now db).1 = true := by
  obtain ⟨r, hr, hid, hu⟩ := h
  have hmem : r ∈ db.filter fun x => x.id == i && x.userId == u := by
    rw [List.mem_filter]
    exact ⟨hr, by simp [hid, hu]⟩
  simp only [deleteSubscription, Bool.not_eq_true']
  rw [Bool.eq_false_iff]
  intro htrue
  rw [List.isEmpty_iff] at htrue
  rw [htrue] at hmem
  exact List.not_mem_nil r hmem

/-- Claim C1 (amended): for a subscription with id `i` owned by `u` that is
present in the table (active or not), `delete(i, u)` returns `true` and
sets `isActive = false` on every row with that id and owner; a second
`delete(i, u)` also returns `true` (the UPDATE's WHERE clause matches the
row again, since it does not filter on `isActive`); and after the first
delete no subscription with id `i` appears in `list(u)`. -/
theorem c1_soft_delete (db : List SubRow) (i u : Nat) (now : Int)
    (h : ∃ r ∈ db, r.id = i ∧ r.userId = u) :
    (deleteSubscription i u now db).1 = true ∧
    (deleteSubscription i u now (deleteSubscription i u now db).2).1 = true ∧
    (∀ s ∈ (deleteSubscription i u now db).2,
      s.id = i → s.userId = u → s.isActive = false) ∧
    ∀ s ∈ getSubscriptions u (deleteSubscription i u now db).2, s.id ≠ i := by
  obtain ⟨r, hr, hid, hu⟩ := h
  have hinactive : ∀ s ∈ (deleteSubscription i u now db).2,
      s.id = i → s.userId = u → s.isActive = false := by
    intro s hs hsid hsu
    simp only [deleteSubscription, List.mem_map] at hs
    obtain ⟨x, hx, hxs⟩ := hs
    by_cases hc : (x.id == i && x.userId == u) = true
    · rw [if_pos hc] at hxs
      rw [← hxs]
    · rw [if_neg hc] at hxs
      subst hxs
      simp [hsid, hsu] at hc
  refine ⟨deleteSubscription_fst ⟨r, hr, hid, hu⟩, ?_, hinactive, ?_⟩
  · apply deleteSubscription_fst
    refine ⟨if r.id == i && r.userId == u then
        { r with isActive := false, updatedAt := now } else r, ?_, ?_⟩
    · exact List.mem_map_of_mem _ hr
    · have hc : (r.id == i && r.userId == u) = true := by simp [hid, hu]
      rw [if_pos hc]
      exact ⟨hid, hu⟩
  · intro s hs
    rw [mem_getSubscriptions] at hs
    intro hsid
    have := hinactive s hs.1 hsid hs.2.1
    rw [hs.2.2] at this
    exact Bool.noConfusion this

/-- Claim C1 counterexample: the claim as stated says the second
`delete(id, u)` on the same subscription returns `false`; on the code it
returns `true`, because the UPDATE's WHERE clause (`id` and `userId` only)
still matches the soft-deleted row. -/
theorem c1_counterexample :
    ¬((deleteSubscription 1 1 0 (deleteSubscription 1 1 0 [exSub]).2).1
      = false) := by decide

/-- Claim C1 witness: the amended theorem applied to the one-row table
`[exSub]`. -/
theorem c1_witness :
    (deleteSubscription 1 1 0 [exSub]).1 = true ∧
    (deleteSubscription 1 1 0 (deleteSubscription 1 1 0 [exSub]).2).1
      = true := by
  have h := c1_soft_delete [exSub] 1 1 0 ⟨exSub, by decide, by decide, by decide⟩
  exact ⟨h.1, h.2.1⟩

/-- Claim C2 (amended): a subscription with `isActive = false` appears in
neither `list(u)` nor `listUpcoming(u, limit)` (both queries filter on
`isActive = true`); but `get(id, userId)` filters only on `id` and
`userId` and can still return the inactive subscription. -/
theorem c2_inactive_excluded (db : List SubRow) (u : Nat) (r : SubRow)
    (limit : Nat) (now : Int) (_hr : r ∈ db) (hin : r.isActive = false) :
    r ∉ getSubscriptions u db ∧
    r ∉ getUpcomingSubscriptions u limit now db := by
  constructor
  · intro hmem
    rw [mem_getSubscriptions] at hmem
    rw [hmem.2.2] at hin
    exact Bool.noConfusion hin
  · intro hmem
    have := mem_getUpcomingSubscriptions hmem
    rw [this.2.2.1] at hin
    exact Bool.noConfusion hin

/-- Claim C2 counterexample: the claim as stated says `get(id, userId)`
reports not-found for an inactive subscription; on the code
`getSubscription` has no `isActive` filter and returns the soft-deleted
row. -/
theorem c2_counterexample : getSubscription 2 1 [exInactive] ≠ none := by
  decide

/-- Claim C2 witness: the amended theorem applied to the one-row table
`[exInactive]`. -/
theorem c2_witness :
    exInactive ∉ getSubscriptions 1 [exInactive] ∧
    exInactive ∉ getUpcomingSubscriptions 1 10 0 [exInactive] :=
  c2_inactive_excluded [exInactive] 1 exInactive 10 0 (by decide) (by decide)

/-- A valid create payload that does not supply `isActive`. -/
def exPayload : SubPayload :=
  { name := some "Spotify", amount := some "9.99", currency := none,
    billingPeriod := some "monthly", nextPaymentDate := some (some 864000000),
    reminderDays := none, description := none, emailNotifications := none,
    pushNotifications := none, isActive := none }

/-- The parse result of `exPayload`. -/
def exIns : InsertSub :=
  { name := "Spotify", amount := "9.99", currency := none,
    billingPeriod := "monthly", nextPaymentDate := 864000000,
    reminderDays := none, description := none, emailNotifications := none,
    pushNotifications := none, isActive := none }

/-- A create payload that supplies `isActive := false`. -/
def exPayloadInactive : SubPayload :=
  { exPayload with isActive := some false }

/-- The parse result of `exPayloadInactive`. -/
def exInsInactive : InsertSub :=
  { exIns with isActive := some false }

lemma parseInsert_isActive {p : SubPayload} {ins : InsertSub}
    (h : parseInsert p = some ins) : ins.isActive = p.isActive := by
  rcases p with ⟨n, a, c, bp, d, rm, ds, e, ps, ia⟩
  rcases n with _ | n <;> rcases a with _ | a <;> rcases bp with _ | bp <;>
    rcases d with _ | d <;> (simp [parseInsert] at h; try cases h)
  rcases d with _ | d
  · simp [parseInsert] at h
  · simp [parseInsert] at h
    rw [← h]

/-- Claim C3 (amended): every accepted create payload yields a
subscription with the server-assigned id and `createdAt = updatedAt =`
creation time; `isActive` defaults to `true` when the payload omits it,
but the insert schema does not strip a supplied `isActive`, so a payload
carrying `isActive:false` creates an inactive subscription. -/
theorem c3_create_fields (p : SubPayload) (ins : InsertSub)
    (u freshId : Nat) (now : Int) (db : List SubRow)
    (h : parseInsert p = some ins) :
    (createSubscription ins u freshId now db).1.id = freshId ∧
    (createSubscription ins u freshId now db).1.createdAt = now ∧
    (createSubscription ins u freshId now db).1.updatedAt = now ∧
    (createSubscription ins u freshId now db).1.isActive
      = p.isActive.getD true := by
  refine ⟨rfl, rfl, rfl, ?_⟩
  show ins.isActive.getD true = p.isActive.getD true
  rw [parseInsert_isActive h]

/-- Claim C3 counterexample: the payload `exPayloadInactive` (which
supplies `isActive := false`) is accepted by the insert schema, and the
subscription created from it has `isActive = false`, not `true` as the
claim states. -/
theorem c3_counterexample :
    parseInsert exPayloadInactive = some exInsInactive ∧
    (createSubscription exInsInactive 1 7 5 []).1.isActive ≠ true := by
  decide

/-- Claim C3 witness: the amended theorem applied to `exPayload`. -/
theorem c3_witness :
    (createSubscription exIns 1 7 5 []).1.id = 7 ∧
    (createSubscription exIns 1 7 5 []).1.createdAt = 5 ∧
    (createSubscription exIns 1 7 5 []).1.updatedAt = 5 ∧
    (createSubscription exIns 1 7 5 []).1.isActive
      = exPayload.isActive.getD true :=
  c3_create_fields exPayload exIns 1 7 5 [] (by decide)

/-- A payload with every field absent. -/
def exMissing : SubPayload :=
  { name := none, amount := none, currency := none, billingPeriod := none,
    nextPaymentDate := none, reminderDays := none, description := none,
    emailNotifications := none, pushNotifications := none, isActive := none }

/-- A payload whose `nextPaymentDate` is a supplied Invalid Date. -/
def exBadDate : SubPayload :=
  { exPayload with nextPaymentDate := some none }

/-- A payload with a negative amount string and a billing period outside
the enumerated values, all required fields present and the date valid. -/
def exBadValues : SubPayload :=
  { exPayload with amount := some "-5.00", billingPeriod := some "bogus" }

/-- Claim C4 (amended): a create payload is rejected (400, table
unchanged) exactly when a required field (`name`, `amount`,
`billingPeriod`, `nextPaymentDate`) is missing or `nextPaymentDate` is not
a valid date; an update payload is rejected exactly when its
`nextPaymentDate` is not a valid date (the partial schema makes every
field optional).  The `amount` and `billingPeriod` values are validated
only as strings: a negative or non-numeric amount and a billing period
outside {monthly, yearly, weekly, quarterly, custom} are accepted. -/
theorem c4_validation (p : SubPayload) (u freshId i : Nat) (now : Int)
    (db : List SubRow) :
    (parseInsert p = none ↔
      (p.name = none ∨ p.amount = none ∨ p.billingPeriod = none ∨
       p.nextPaymentDate = none ∨ p.nextPaymentDate = some none)) ∧
    (parseInsert p = none → postSubscription u p freshId now db = (400, db)) ∧
    (parsePartial p = none ↔ p.nextPaymentDate = some none) ∧
    (parsePartial p = none → putSubscription i u p now db = (400, db)) := by
  refine ⟨?_, ?_, ?_, ?_⟩
  · rcases p with ⟨n, a, c, bp, d, rm, ds, e, ps, ia⟩
    rcases n with _ | n <;> rcases a with _ | a <;> rcases bp with _ | bp <;>
      (try rcases d with _ | (_ | d)) <;> simp [parseInsert]
  · intro h
    simp [postSubscription, h]
  · rcases p with ⟨n, a, c, bp, d, rm, ds, e, ps, ia⟩
    rcases d with _ | (_ | d) <;> simp [parsePartial]
  · intro h
    simp [putSubscription, h]

/-- Claim C4 counterexample: the payload `exBadValues` (amount "-5.00",
billingPeriod "bogus") passes validation and POST creates a subscription
with HTTP 201, where the claim says it is rejected with 400 and nothing is
created. -/
theorem c4_counterexample :
    parseInsert exBadValues ≠ none ∧
    (postSubscription 1 exBadValues 7 0 []).1 = 201 ∧
    (postSubscription 1 exBadValues 7 0 []).2 ≠ [] := by decide

/-- Claim C4 witness: the amended theorem applied to the all-absent
payload (POST) and the invalid-date payload (PUT). -/
theorem c4_witness :
    postSubscription 1 exMissing 7 0 [] = (400, []) ∧
    putSubscription 3 1 exBadDate 0 [] = (400, []) :=
  ⟨(c4_validation exMissing 1 7 3 0 []).2.1 (by decide),
   (c4_validation exBadDate 1 7 3 0 []).2.2.2 (by decide)⟩

/-- Claim C5: the classifier evaluated at `nextPaymentDate = now + 10
days` (`diffDays = 10`).  The code computes `ceil(10 / 7) = 2` but
appends the plural "s" only when `diffDays > 14`, so the label is
"Due in 2 week" — not the "Due in 2 weeks" the claim (and the spec's own
example) requires.  This is the pluralization slip recorded as a code
bug. -/
theorem c5_classifier_at_ten_days :
    getDueText (10 * 86400000) = { text := "Due in 2 week", urgent := false }
    := by decide

lemma yearlyStep_eq (sum : Rat) (sub : StatSub) :
    yearlyStep sum sub = sum + sub.amount * codeMultiplier sub.billingPeriod := by
  simp only [yearlyStep, codeMultiplier]
  split_ifs <;> ring

lemma foldl_yearlyStep (subs : List StatSub) (a : Rat) :
    subs.foldl yearlyStep a
      = a + (subs.map fun s => s.amount * codeMultiplier s.billingPeriod).sum := by
  induction subs generalizing a with
  | nil => simp
  | cons x xs ih => simp [yearlyStep_eq, ih, add_assoc]

/-- Claim C6: for every subscription list whose billing periods are among
the five enumerated values, `yearlySpend` is the sum of each amount times
the multiplier table monthly→12, yearly→1, weekly→52, quarterly→4,
custom→1; in particular a single monthly 10.00 gives 120.00 and a single
weekly 5.00 gives 260.00. -/
theorem c6_yearly_spend :
    (∀ subs : List StatSub,
      (∀ s ∈ subs, s.billingPeriod = "monthly" ∨ s.billingPeriod = "yearly" ∨
        s.billingPeriod = "weekly" ∨ s.billingPeriod = "quarterly" ∨
        s.billingPeriod = "custom") →
      statsYearlySpend subs
        = (subs.map fun s => s.amount * specMultiplier s.billingPeriod).sum) ∧
    statsYearlySpend [{ billingPeriod := "monthly", amount := 10 }] = 120 ∧
    statsYearlySpend [{ billingPeriod := "weekly", amount := 5 }] = 260 := by
  refine ⟨?_, by with_unfolding_all decide, by with_unfolding_all decide⟩
  intro subs h
  rw [statsYearlySpend, foldl_yearlyStep, zero_add]
  congr 1
  apply List.map_congr_left
  intro s hs
  rcases h s hs with hbp | hbp | hbp | hbp | hbp <;>
    simp [codeMultiplier, specMultiplier, hbp]

/-- Claim C6 witness: the theorem's universal part applied to a two-row
list, one monthly 10.00 and one weekly 5.00. -/
theorem c6_witness :
    statsYearlySpend [{ billingPeriod := "monthly", amount := 10 },
      { billingPeriod := "weekly", amount := 5 }] = 380 := by
  rw [c6_yearly_spend.1 [{ billingPeriod := "monthly", amount := 10 },
    { billingPeriod := "weekly", amount := 5 }] (by decide)]
  with_unfolding_all decide

/-- The two-subscription list with 2-scale decimal amounts 0.10 and 0.20,
both monthly. -/
def exDriftList : List StatSub :=
  [{ billingPeriod := "monthly", amount := 1 / 10 },
   { billingPeriod := "monthly", amount := 2 / 10 }]

/-- Claim C7 counterexample: for the 2-scale decimal amounts 0.10 and
0.20, the `monthlySpend` the code computes with `parseFloat` and binary64
addition differs from the exact fixed-point sum 0.30. -/
theorem c7_counterexample :
    statsMonthlySpendFP exDriftList ≠ statsMonthlySpend exDriftList := by
  with_unfolding_all decide

/-- Claim C7 (amended): the monetary aggregates are computed in binary64
floating point, not exact fixed-point arithmetic, and can drift: for
monthly amounts 0.10 and 0.20 the exact fixed-point `monthlySpend` is
`3 / 10`, but the value the code computes (binary64 `parseFloat` and
addition, the JS `0.1 + 0.2 = 0.30000000000000004`) is not `3 / 10`. -/
theorem c7_float_drift :
    statsMonthlySpend exDriftList = 3 / 10 ∧
    statsMonthlySpendFP exDriftList ≠ 3 / 10 := by
  refine ⟨?_, ?_⟩ <;> with_unfolding_all decide

lemma length_filter_add_length_filter_not {α : Type} (p q : α → Bool)
    (l : List α) (h : ∀ x, q x = !p x) :
    (l.filter p).length + (l.filter q).length = l.length := by
  induction l with
  | nil => simp
  | cons x xs ih =>
    have hq := h x
    cases hp : p x <;> rw [hp] at hq <;>
      simp [List.filter_cons, hp, hq] <;> omega

lemma groupPred_compl (now : Int) (sub : SubRow) :
    (decide (7 < diffDaysOf now sub) || decide (diffDaysOf now sub < 0))
      = !(decide (diffDaysOf now sub ≤ 7) && decide (0 ≤ diffDaysOf now sub)) := by
  by_cases h1 : diffDaysOf now sub ≤ 7 <;>
    by_cases h2 : 0 ≤ diffDaysOf now sub <;>
      simp [h1, h2] <;> omega

/-- Claim C8: for every `now` and subscription list, the grouping policy
puts each subscription in exactly one of the two groups — `upcoming`
(the second component, `0 ≤ diffDays ≤ 7`) and `active` (the first
component, otherwise): the group sizes add up to the whole list and no
subscription is in both or in neither. -/
theorem c8_grouping_partition (now : Int) (subs : List SubRow) :
    (groupSubscriptionsByStatus now subs).2.length
      + (groupSubscriptionsByStatus now subs).1.length = subs.length ∧
    ∀ s ∈ subs,
      (s ∈ (groupSubscriptionsByStatus now subs).2 ∧
       s ∉ (groupSubscriptionsByStatus now subs).1) ∨
      (s ∈ (groupSubscriptionsByStatus now subs).1 ∧
       s ∉ (groupSubscriptionsByStatus now subs).2) := by
  constructor
  · exact length_filter_add_length_filter_not _ _ subs (groupPred_compl now)
  · intro s hs
    by_cases hup :
        (decide (diffDaysOf now s ≤ 7) && decide (0 ≤ diffDaysOf now s)) = true
    · left
      refine ⟨List.mem_filter.2 ⟨hs, hup⟩, fun hact => ?_⟩
      have := (List.mem_filter.1 hact).2
      rw [groupPred_compl now s, hup] at this
      exact Bool.noConfusion this
    · right
      have hb : (decide (7 < diffDaysOf now s)
          || decide (diffDaysOf now s < 0)) = true := by
        rw [groupPred_compl now s]
        simp [Bool.eq_false_iff.2 hup]
      refine ⟨List.mem_filter.2 ⟨hs, hb⟩, fun hupc => ?_⟩
      exact hup (List.mem_filter.1 hupc).2

/-- Claim C8 witness: the partition theorem applied at `now = 0` to the
one-row list `[exSub]` (whose payment is due in one day, so it falls in
the `upcoming` group). -/
theorem c8_witness :
    (exSub ∈ (groupSubscriptionsByStatus 0 [exSub]).2 ∧
     exSub ∉ (groupSubscriptionsByStatus 0 [exSub]).1) ∨
    (exSub ∈ (groupSubscriptionsByStatus 0 [exSub]).1 ∧
     exSub ∉ (groupSubscriptionsByStatus 0 [exSub]).2) :=
  (c8_grouping_partition 0 [exSub]).2 exSub (by decide)

/-- Claim C9: `averageSpend` is `monthlySpend / totalSubscriptions` when
the count is positive and 0 when the count is 0 (or when the stats query
has produced nothing); the division is guarded by the zero test, so no
division is performed on a zero count. -/
theorem c9_average_spend (s : StatsOut) :
    (s.totalSubscriptions = 0 → getAverageSpend (some s) = 0) ∧
    (s.totalSubscriptions ≠ 0 →
      getAverageSpend (some s)
        = s.monthlySpend / (s.totalSubscriptions : Rat)) ∧
    getAverageSpend none = 0 := by
  refine ⟨fun h => by simp [getAverageSpend, h],
    fun h => by simp [getAverageSpend, h], rfl⟩

/-- Claim C9 witness: the theorem applied to a zero-count stats object and
to a two-subscription stats object. -/
theorem c9_witness :
    getAverageSpend (some ⟨0, 5, 0⟩) = 0 ∧
    getAverageSpend (some ⟨2, 10, 0⟩)
      = (⟨2, 10, 0⟩ : StatsOut).monthlySpend
        / ((⟨2, 10, 0⟩ : StatsOut).totalSubscriptions : Rat) :=
  ⟨(c9_average_spend ⟨0, 5, 0⟩).1 rfl,
   (c9_average_spend ⟨2, 10, 0⟩).2.1 (by decide)⟩

lemma find?_map_applySettings (u : Nat) (p : SettingsPayload) (now : Int)
    {db : List SettingsRow} {r : SettingsRow}
    (h : db.find? (fun x => x.userId == u) = some r) :
    (db.map fun x => if x.userId == u then applySettings p now x else x).find?
      (fun x => x.userId == u) = some (applySettings p now r) := by
  induction db with
  | nil => simp at h
  | cons a l ih =>
    cases ha : (a.userId == u)
    · have hstep : List.find? (fun x => x.userId == u) (a :: l)
          = List.find? (fun x => x.userId == u) l :=
        List.find?_cons_of_neg l (by simp [ha])
      rw [hstep] at h
      rw [List.map_cons, if_neg (by simp [ha])]
      exact (List.find?_cons_of_neg _ (by simp [ha])).trans (ih h)
    · have hstep : List.find? (fun x => x.userId == u) (a :: l) = some a :=
        List.find?_cons_of_pos l ha
      rw [hstep, Option.some.injEq] at h
      subst h
      rw [List.map_cons, if_pos ha]
      exact List.find?_cons_of_pos _ ha

/-- Claim C10: settings `get` for a user with no stored row responds with
exactly the documented fallback object `{emailNotifications:true,
pushNotifications:true, weeklySummary:false, darkMode:false,
defaultCurrency:"USD"}`; and after any `upsert`, `get` finds exactly the
row the upsert produced (the upserted values). -/
theorem c10_settings :
    (∀ (u : Nat) (db : List SettingsRow), getUserSettings u db = none →
      getSettingsHandler u db
        = SettingsReply.fallback true true false false "USD") ∧
    (∀ (u : Nat) (p : SettingsPayload) (freshId : Nat) (now : Int)
      (db : List SettingsRow),
      getUserSettings u (upsertUserSettings u p freshId now db).2
        = some (upsertUserSettings u p freshId now db).1) := by
  constructor
  · intro u db h
    simp [getSettingsHandler, h]
  · intro u p freshId now db
    cases hf : db.find? (fun r => r.userId == u) with
    | none =>
      simp only [upsertUserSettings, hf]
      unfold getUserSettings
      rw [List.find?_append, hf, Option.none_or]
      simp [newSettingsRow]
    | some r =>
      simp only [upsertUserSettings, hf]
      exact find?_map_applySettings u p now hf

/-- Claim C10 witness: `get` on an empty settings table responds with the
fallback object, and an upsert for user 1 followed by `get` returns the
upserted row. -/
theorem c10_witness :
    getSettingsHandler 1 []
      = SettingsReply.fallback true true false false "USD" ∧
    getUserSettings 1
        (upsertUserSettings 1 ⟨some false, none, none, none, some "EUR"⟩ 9 4 []).2
      = some (upsertUserSettings 1 ⟨some false, none, none, none, some "EUR"⟩ 9 4 []).1 :=
  ⟨c10_settings.1 1 [] rfl,
   c10_settings.2 1 ⟨some false, none, none, none, some "EUR"⟩ 9 4 []⟩
